import Mathlib

/-!
Verification development for the MCM Alerts repository (alerting dashboard:
serverless notification intake, push fan-out, OneSignal relay, Dashboard page
state, unified notification service, and service-worker push handling).

Each section shallowly embeds the JavaScript/TypeScript source it names;
machine effects (current time, database success or failure, push-service
responses) are passed in as explicit parameters.  Definitions come first,
followed by the helper lemmas and the claim theorems.
-/

namespace Intake

/-- A string-valued JSON field as JavaScript sees it: absent (or undefined)
is `none`; present is `some s`.  JavaScript truthiness for strings: absent,
undefined and the empty string are all falsy. -/
def truthy : Option String → Bool
  | none => false
  | some s => s != ""

/-- The parsed JSON body of a POST to `netlify/functions/notifications.js`:
`title`, `message`, `type`, `priority` are destructured, every remaining
field is collected into `otherData` by the rest-spread. -/
structure IntakeBody where
  title : Option String
  message : Option String
  type : Option String
  priority : Option String
  otherData : List (String × String)
deriving DecidableEq

/-- The row the intake function inserts into the `notifications` table
(`notifications.js` lines 36-45). -/
structure NotificationRow where
  title : String
  body : String
  type : String
  priority : String
  metadata : List (String × String)
  created_at : String
deriving DecidableEq

/-- The HTTP response shape of the intake handler: status code, whether the
body carried `success: true`, and the error message when one was returned. -/
structure IntakeResponse where
  statusCode : Nat
  success : Bool
  errorMsg : Option String
deriving DecidableEq

/-- Embedding of `exports.handler` of `netlify/functions/notifications.js`.
`insertError` is the database's answer to the insert (`some msg` when the
insert errors, in which case no row is persisted); `now` is the server
clock reading used for `created_at`.  Returns the response together with
the list of rows the call inserted. -/
def handler (method : String) (body : IntakeBody) (insertError : Option String)
    (now : String) : IntakeResponse × List NotificationRow :=
  if method = "OPTIONS" then (⟨200, false, none⟩, [])
  else if method = "POST" then
    if !(truthy body.title) || !(truthy body.message) then
      (⟨400, false, some "Title and message are required"⟩, [])
    else
      match insertError with
      | some msg => (⟨500, false, some msg⟩, [])
      | none =>
          (⟨200, true, none⟩,
           [{ title := body.title.getD ""
              body := body.message.getD ""
              type := if truthy body.type then body.type.getD "" else "general"
              priority := body.priority.getD "medium"
              metadata := body.otherData
              created_at := now }])
  else (⟨405, false, some "Method not allowed"⟩, [])

end Intake

namespace Dash

/-- JavaScript `a.toLowerCase()`, character by character. -/
def lowerCase (s : String) : String := String.mk (s.data.map Char.toLower)

/-- JavaScript `hay.includes(needle)` on the underlying character lists:
true iff `needle` occurs contiguously inside `hay`. -/
def listIncludes : List Char → List Char → Bool
  | [], needle => needle.isEmpty
  | h :: t, needle => needle.isPrefixOf (h :: t) || listIncludes t needle

/-- JavaScript `hay.includes(needle)` for strings. -/
def strIncludes (hay needle : String) : Bool := listIncludes hay.data needle.data

/-- JavaScript strict equality `x === y` between a possibly-undefined string
field and a string: undefined compares unequal to every string. -/
def optionEqString : Option String → String → Bool
  | none, _ => false
  | some s, t => s == t

/-- The notification record of `src/pages/Dashboard.tsx` (interface
`Notification`, lines 18-26): `type` and `priority` are optional. -/
structure Notification where
  id : String
  title : String
  body : String
  type : Option String
  priority : Option String
  acknowledged : Bool
  created_at : String
deriving DecidableEq

/-- The filter predicate of `filteredNotifications` (Dashboard.tsx lines
294-302): case-insensitive substring match on title or body, strict
equality on the type and priority filters. -/
def matchesFilter (searchTerm filterType filterPriority : String)
    (n : Notification) : Bool :=
  let matchesSearch := strIncludes (lowerCase n.title) (lowerCase searchTerm) ||
    strIncludes (lowerCase n.body) (lowerCase searchTerm)
  let matchesType := filterType == "all" || optionEqString n.type filterType
  let matchesPriority := filterPriority == "all" ||
    optionEqString n.priority filterPriority
  matchesSearch && matchesType && matchesPriority

/-- `filteredNotifications` of Dashboard.tsx: the notification list filtered
by the current search term, type filter and priority filter. -/
def filteredNotifications (notifications : List Notification)
    (searchTerm filterType filterPriority : String) : List Notification :=
  notifications.filter (matchesFilter searchTerm filterType filterPriority)

/-- The filter predicate as the specification words it (§4.3): identical
to the code except that the priority comparison first defaults an absent
priority to "medium".  Stated for comparison with `matchesFilter`. -/
def specFilterPasses (searchTerm filterType filterPriority : String)
    (n : Notification) : Bool :=
  (searchTerm == "" ||
    strIncludes (lowerCase n.title) (lowerCase searchTerm) ||
    strIncludes (lowerCase n.body) (lowerCase searchTerm)) &&
  (filterType == "all" || optionEqString n.type filterType) &&
  (filterPriority == "all" || n.priority.getD "medium" == filterPriority)

/-- The amended filter predicate: as the claim, except that the priority
clause requires the item's priority to be present and equal to the filter —
an absent priority is not defaulted to "medium". -/
def amendedFilterPasses (searchTerm filterType filterPriority : String)
    (n : Notification) : Bool :=
  (searchTerm == "" ||
    strIncludes (lowerCase n.title) (lowerCase searchTerm) ||
    strIncludes (lowerCase n.body) (lowerCase searchTerm)) &&
  (filterType == "all" || optionEqString n.type filterType) &&
  (filterPriority == "all" || optionEqString n.priority filterPriority)

/-- Dashboard page state owned by the acknowledge operations: the
notification list and the separately tracked unread counter (a JavaScript
number, so modelled as an integer). -/
structure DashboardState where
  notifications : List Notification
  unreadCount : Int
deriving DecidableEq

/-- Local-state effect of a successful `acknowledgeNotification`
(Dashboard.tsx lines 236-244): mark the matching id acknowledged and set
the counter to `Math.max(0, prev - 1)`. -/
def acknowledgeNotification (s : DashboardState) (notificationId : String) :
    DashboardState :=
  { notifications := s.notifications.map (fun n =>
      if n.id == notificationId then { n with acknowledged := true } else n)
    unreadCount := max 0 (s.unreadCount - 1) }

/-- Local-state effect of a successful `acknowledgeAllNotifications`
(Dashboard.tsx lines 269-272): mark everything acknowledged, zero the
counter. -/
def acknowledgeAllNotifications (s : DashboardState) : DashboardState :=
  { notifications := s.notifications.map (fun n => { n with acknowledged := true })
    unreadCount := 0 }

/-- Realtime-insert handler step (Dashboard.tsx lines 99-114): skip the
insert when the id is already present, otherwise prepend and keep at most
the first 49 previous items. -/
def realtimeInsert (n : Notification) (prev : List Notification) :
    List Notification :=
  if prev.any (fun m => m.id == n.id) then prev else n :: prev.take 49

/-- Folding the realtime-insert handler over a chronological stream of
inserted rows, oldest first, starting from an empty list. -/
def realtimeInsertAll (ns : List Notification) : List Notification :=
  ns.foldl (fun acc n => realtimeInsert n acc) []

end Dash

namespace OneSignalRelay

/-- The provider-priority computation of the OneSignal relay function
(`supabase/functions/send-onesignal-notification/index.ts`): line 58 first
defaults a falsy `record.priority` to "medium"
(`const priority = record.priority || 'medium'`), lines 77-84 then map
high/urgent to 10, medium to 5 and anything else to 1. -/
def oneSignalPriority (priority : Option String) : Nat :=
  let p := if Intake.truthy priority then priority.getD "" else "medium"
  if p = "high" ∨ p = "urgent" then 10
  else if p = "medium" then 5
  else 1

end OneSignalRelay

namespace SendFn

/-- Outcome of one `webpush.sendNotification` attempt as the push service
answers it: delivered, a definitive "gone" signal (HTTP 410 or a body
containing "unsubscribed"), or any other failure. -/
inductive SendOutcome where
  | success
  | gone
  | fail
deriving DecidableEq

/-- What one call of `sendNotification` (send-notification.js lines 45-72)
did: the boolean it resolved to, whether it deleted the subscription row,
and the backoff delays (in milliseconds) it slept through before retries. -/
structure SendResult where
  delivered : Bool
  deletedSubscription : Bool
  delays : List Nat
deriving DecidableEq

/-- Embedding of `sendNotification(subscription, payload, retries)`
(send-notification.js lines 45-72).  `attempt k` is the push service's
response to the k-th delivery attempt for this subscription.  A success
resolves true; a gone signal deletes the subscription row and resolves
false with no retry; any other failure sleeps `1000 * (4 - retries)` and
recurses with `retries - 1` while retries remain. -/
def sendNotification (attempt : Nat → SendOutcome) : Nat → Nat → SendResult
  | k, retries =>
    match attempt k, retries with
    | .success, _ => ⟨true, false, []⟩
    | .gone, _ => ⟨false, true, []⟩
    | .fail, 0 => ⟨false, false, []⟩
    | .fail, r + 1 =>
        let rest := sendNotification attempt (k + 1) r
        ⟨rest.delivered, rest.deletedSubscription, 1000 * (3 - r) :: rest.delays⟩

/-- The handler's result analysis (send-notification.js lines 116-137):
every subscription is attempted with 3 retries, `sent` counts the fulfilled
true results, `failed` is the rest, and the response is always 200.
Returns (statusCode, sent, failed, total). -/
def handlerFanOut (subs : List (Nat → SendOutcome)) : Nat × Nat × Nat × Nat :=
  let sent := (subs.map (fun attempt => sendNotification attempt 0 3)).countP
    (fun r => r.delivered)
  (200, sent, subs.length - sent, subs.length)

end SendFn

namespace SW

/-- The JSON fields of a push payload that the enhanced service worker's
push handler (`src/sw.js` lines 40-121) inspects; `none` means the key is
absent from the payload. -/
structure PushPayload where
  title : Option String
  message : Option String
  body : Option String
  id : Option String
  priority : Option String
  url : Option String
deriving DecidableEq

/-- The notification the push handler passes to `showNotification`,
restricted to the fields the handler computes: title, body, uniqueness tag,
requireInteraction, vibration pattern, and the data bag's id and url. -/
structure ShownNotification where
  title : String
  body : String
  tag : String
  requireInteraction : Bool
  vibrate : List Nat
  dataId : Option String
  dataUrl : String
deriving DecidableEq

/-- Embedding of the enhanced push event handler (`src/sw.js` lines 40-121).
`payload` is the parsed push data (`none` when the event carries no data or
parsing fails, in which case the defaults stand); `now` is `Date.now()`.
With a payload, title and body fall through the JavaScript `||` chains, the
data bag receives every payload field plus `id: pushData.id || push-now`,
and the priority switch adjusts requireInteraction, vibrate and tag. -/
def pushHandler (payload : Option PushPayload) (now : Nat) : ShownNotification :=
  match payload with
  | none =>
      { title := "MCM Alert"
        body := "New notification received"
        tag := s!"mcm-notification-{now}"
        requireInteraction := false
        vibrate := [200, 100, 200]
        dataId := none
        dataUrl := "/" }
  | some p =>
      let title := if Intake.truthy p.title then p.title.getD "" else "MCM Alert"
      let body :=
        if Intake.truthy p.message then p.message.getD ""
        else if Intake.truthy p.body then p.body.getD ""
        else "New notification received"
      let dataId := some (if Intake.truthy p.id then p.id.getD "" else s!"push-{now}")
      let dataUrl := p.url.getD "/"
      match p.priority with
      | some "high" =>
          ⟨title, body, s!"mcm-urgent-{now}", true, [300, 100, 300, 100, 300],
            dataId, dataUrl⟩
      | some "urgent" =>
          ⟨title, body, s!"mcm-urgent-{now}", true, [300, 100, 300, 100, 300],
            dataId, dataUrl⟩
      | some "low" =>
          ⟨title, body, s!"mcm-low-{now}", false, [100], dataId, dataUrl⟩
      | _ =>
          ⟨title, body, s!"mcm-medium-{now}", false, [200, 100, 200], dataId, dataUrl⟩

end SW

namespace Unified

/-- The `UnifiedNotification` record of
`src/services/unifiedNotificationService.ts` (the unified notification
service), omitting the open `metadata` bag. -/
structure UnifiedNotification where
  id : String
  user_id : Option String
  title : String
  message : Option String
  body : Option String
  type : String
  priority : String
  site : Option String
  is_read : Bool
  acknowledged : Option Bool
  action_url : Option String
  timestamp : String
  created_at : String
  updated_at : Option String
deriving DecidableEq

/-- Cache effect of `handleInAppNotification` (unified service lines
422-426): unshift, then truncate to the first 100 when the length
exceeds 100. -/
def inAppCacheInsert (n : UnifiedNotification) (cache : List UnifiedNotification) :
    List UnifiedNotification :=
  if 100 < (n :: cache).length then (n :: cache).take 100 else n :: cache

/-- Folding the in-app handler's cache update over a chronological stream
of notifications, oldest first, starting from an empty cache. -/
def inAppInsertAll (ns : List UnifiedNotification) : List UnifiedNotification :=
  ns.foldl (fun acc n => inAppCacheInsert n acc) []

/-- Listener callbacks are compared by JavaScript reference identity; a
callback reference is modelled by a numeric identifier. -/
abbrev ListenerRef := Nat

/-- `addInAppListener` (unified service lines 737-742): push the callback
onto the in-app listener list. -/
def addInAppListener (cb : ListenerRef) (listeners : List ListenerRef) :
    List ListenerRef :=
  listeners ++ [cb]

/-- The de-registration closure returned by `addInAppListener`: keep every
listener whose reference differs from the callback
(`filter (l => l !== callback)`). -/
def removeInAppListener (cb : ListenerRef) (listeners : List ListenerRef) :
    List ListenerRef :=
  listeners.filter (fun l => l != cb)

/-- `addPushListener` (unified service lines 744-749). -/
def addPushListener (cb : ListenerRef) (listeners : List ListenerRef) :
    List ListenerRef :=
  listeners ++ [cb]

/-- The de-registration closure returned by `addPushListener`. -/
def removePushListener (cb : ListenerRef) (listeners : List ListenerRef) :
    List ListenerRef :=
  listeners.filter (fun l => l != cb)

/-- `handleInAppNotification` (unified service lines 419-441) as it affects
cache and listeners: the capped cache update, and one invocation `(cb, n)`
per registered in-app listener, in order (listener exceptions are caught,
so every listener is invoked). -/
def handleInAppNotification (n : UnifiedNotification)
    (cache : List UnifiedNotification) (inAppListeners : List ListenerRef) :
    List UnifiedNotification × List (ListenerRef × UnifiedNotification) :=
  (inAppCacheInsert n cache, inAppListeners.map (fun cb => (cb, n)))

/-- Cache effect of the `PUSH_NOTIFICATION_RECEIVED` branch of
`handleServiceWorkerMessage` (unified service line 476): unshift the
synthesized notification with no truncation. -/
def swMessageCacheInsert (n : UnifiedNotification)
    (cache : List UnifiedNotification) : List UnifiedNotification :=
  n :: cache

/-- The `PUSH_NOTIFICATION_RECEIVED` branch of `handleServiceWorkerMessage`
(unified service lines 461-485) as it affects cache and listeners, with the
synthesized notification passed in: uncapped unshift, then one invocation
per registered push listener. -/
def handlePushMessage (n : UnifiedNotification)
    (cache : List UnifiedNotification) (pushListeners : List ListenerRef) :
    List UnifiedNotification × List (ListenerRef × UnifiedNotification) :=
  (swMessageCacheInsert n cache, pushListeners.map (fun cb => (cb, n)))

/-- Local-cache mutation of `markAsRead` (unified service lines 625-628):
`findIndex` on the id, then set that entry's `is_read` — i.e. flip the
first matching entry only. -/
def setFirstRead : List UnifiedNotification → String → List UnifiedNotification
  | [], _ => []
  | n :: rest, notificationId =>
      if n.id == notificationId then { n with is_read := true } :: rest
      else n :: setFirstRead rest notificationId

/-- The `WHERE` clause of the database update the mark operations issue. -/
inductive UpdateFilter where
  | byId (notificationId : String)
  | unreadOnly
deriving DecidableEq

/-- The database update issued by `markAsRead`/`markAllAsRead`: both read
flags set true and `updated_at` touched, restricted by a filter. -/
structure DbUpdate where
  set_is_read : Bool
  set_acknowledged : Bool
  touch_updated_at : Bool
  filter : UpdateFilter
deriving DecidableEq

/-- What one call of a mark operation did: the resulting local cache, the
database update it issued (none when no database is configured), and the
error it threw (the database error, propagated). -/
structure MarkOutcome where
  cache : List UnifiedNotification
  dbUpdate : Option DbUpdate
  thrown : Option String
deriving DecidableEq

/-- Embedding of `markAsRead` (unified service lines 623-650): the local
cache is mutated first and unconditionally; when Supabase is available the
update (is_read, acknowledged, updated_at) filtered by id is issued and a
database error (`dbError`) is rethrown after the local mutation. -/
def markAsRead (isSupabaseAvailable : Bool) (cache : List UnifiedNotification)
    (notificationId : String) (dbError : Option String) : MarkOutcome :=
  if isSupabaseAvailable then
    ⟨setFirstRead cache notificationId,
      some ⟨true, true, true, UpdateFilter.byId notificationId⟩, dbError⟩
  else ⟨setFirstRead cache notificationId, none, none⟩

/-- Embedding of `markAllAsRead` (unified service lines 652-678): every
cached item's `is_read` is set true first and unconditionally; when
Supabase is available the update filtered to unread rows is issued and a
database error is rethrown after the local mutation. -/
def markAllAsRead (isSupabaseAvailable : Bool) (cache : List UnifiedNotification)
    (dbError : Option String) : MarkOutcome :=
  if isSupabaseAvailable then
    ⟨cache.map (fun n => { n with is_read := true }),
      some ⟨true, true, true, UpdateFilter.unreadOnly⟩, dbError⟩
  else ⟨cache.map (fun n => { n with is_read := true }), none, none⟩

end Unified

/-- A chronological stream of 51 Dashboard notifications with pairwise
distinct ids, used to instantiate the cache-cap theorem. -/
def dashStream : List Dash.Notification :=
  (List.range 51).map (fun i => ⟨toString i, "t", "b", none, none, false, "c"⟩)

/-- A chronological stream of 101 unified-service notifications, used to
instantiate the cache-cap and cache-growth theorems. -/
def unifiedStream : List Unified.UnifiedNotification :=
  (List.range 101).map (fun i =>
    ⟨toString i, none, "t", none, none, "test", "medium", none, false, none,
      none, "ts", "c", none⟩)

theorem listIncludes_nil (hay : List Char) : Dash.listIncludes hay [] = true := by
  cases hay <;> simp [Dash.listIncludes, List.isPrefixOf]

theorem strIncludes_empty (hay : String) : Dash.strIncludes hay "" = true := by
  simp [Dash.strIncludes, listIncludes_nil]

theorem lowerCase_empty : Dash.lowerCase "" = "" := rfl

theorem matchesFilter_eq_amended (searchTerm filterType filterPriority : String)
    (n : Dash.Notification) :
    Dash.matchesFilter searchTerm filterType filterPriority n =
      Dash.amendedFilterPasses searchTerm filterType filterPriority n := by
  by_cases hs : searchTerm = ""
  · subst hs
    simp [Dash.matchesFilter, Dash.amendedFilterPasses, lowerCase_empty,
      strIncludes_empty]
  · have hb : (searchTerm == "") = false := by
      simpa using hs
    simp [Dash.matchesFilter, Dash.amendedFilterPasses, hb, Bool.and_assoc]

theorem realtimeInsert_of_not_mem (n : Dash.Notification)
    (acc : List Dash.Notification)
    (h : n.id ∉ acc.map Dash.Notification.id) :
    Dash.realtimeInsert n acc = n :: acc.take 49 := by
  have hcond : acc.any (fun m => m.id == n.id) = false := by
    rw [List.any_eq_false]
    intro m hm hb
    exact h (List.mem_map.mpr ⟨m, hm, beq_iff_eq.mp hb⟩)
  unfold Dash.realtimeInsert
  simp [hcond]

theorem realtime_step_nodup (n : Dash.Notification)
    (acc : List Dash.Notification) (rest : List String)
    (hnd : (acc.map Dash.Notification.id ++ (n.id :: rest)).Nodup) :
    n.id ∉ acc.map Dash.Notification.id ∧
    (((n :: acc.take 49).map Dash.Notification.id) ++ rest).Nodup := by
  have hperm : (acc.map Dash.Notification.id ++ (n.id :: rest)).Perm
      (n.id :: (acc.map Dash.Notification.id ++ rest)) := List.perm_middle
  have hnd2 : (n.id :: (acc.map Dash.Notification.id ++ rest)).Nodup :=
    hperm.nodup hnd
  constructor
  · intro hmem
    have hx : n.id ∈ acc.map Dash.Notification.id ++ rest :=
      List.mem_append_left _ hmem
    exact (List.nodup_cons.mp hnd2).1 hx
  · have hsub : ((n :: acc.take 49).map Dash.Notification.id) ++ rest =
        n.id :: ((acc.take 49).map Dash.Notification.id ++ rest) := by simp
    rw [hsub]
    apply List.Nodup.cons
    · intro hmem
      rcases List.mem_append.mp hmem with h1 | h1
      · have h2 : n.id ∈ acc.map Dash.Notification.id :=
          List.map_subset _ (List.take_subset 49 acc) h1
        have hx : n.id ∈ acc.map Dash.Notification.id ++ rest :=
          List.mem_append_left _ h2
        exact (List.nodup_cons.mp hnd2).1 hx
      · have hx : n.id ∈ acc.map Dash.Notification.id ++ rest :=
          List.mem_append_right _ h1
        exact (List.nodup_cons.mp hnd2).1 hx
    · have hs : ((acc.take 49).map Dash.Notification.id ++ rest).Sublist
          ((acc.map Dash.Notification.id) ++ rest) :=
        List.Sublist.append_right ((List.take_sublist 49 acc).map _) _
      exact hs.nodup (List.nodup_cons.mp hnd2).2

theorem realtime_foldl_length (ns : List Dash.Notification) :
    ∀ (acc : List Dash.Notification),
      (acc.map Dash.Notification.id ++ ns.map Dash.Notification.id).Nodup →
      acc.length ≤ 50 →
      (ns.foldl (fun a n => Dash.realtimeInsert n a) acc).length =
        min (acc.length + ns.length) 50 := by
  induction ns with
  | nil => intro acc hnd h50; simp; omega
  | cons n ns ih =>
    intro acc hnd h50
    simp only [List.map_cons] at hnd
    obtain ⟨hnmem, hnd2⟩ :=
      realtime_step_nodup n acc (ns.map Dash.Notification.id) hnd
    rw [List.foldl_cons, realtimeInsert_of_not_mem n acc hnmem]
    rw [ih (n :: acc.take 49) hnd2
      (by simp only [List.length_cons, List.length_take]; omega)]
    simp only [List.length_cons, List.length_take]
    omega

theorem realtime_foldl_head (ns : List Dash.Notification) :
    ∀ (acc : List Dash.Notification), ns ≠ [] →
      (acc.map Dash.Notification.id ++ ns.map Dash.Notification.id).Nodup →
      (ns.foldl (fun a n => Dash.realtimeInsert n a) acc).head? = ns.getLast? := by
  induction ns with
  | nil => intro acc h; exact absurd rfl h
  | cons n ns ih =>
    intro acc _ hnd
    simp only [List.map_cons] at hnd
    obtain ⟨hnmem, hnd2⟩ :=
      realtime_step_nodup n acc (ns.map Dash.Notification.id) hnd
    rw [List.foldl_cons, realtimeInsert_of_not_mem n acc hnmem]
    cases ns with
    | nil => simp
    | cons m ms =>
      rw [ih (n :: acc.take 49) (by simp) hnd2]
      rfl

theorem inAppCacheInsert_length (n : Unified.UnifiedNotification)
    (c : List Unified.UnifiedNotification) :
    (Unified.inAppCacheInsert n c).length = min (c.length + 1) 100 := by
  unfold Unified.inAppCacheInsert
  split
  all_goals simp_all
  all_goals omega

theorem inAppCacheInsert_head (n : Unified.UnifiedNotification)
    (c : List Unified.UnifiedNotification) :
    (Unified.inAppCacheInsert n c).head? = some n := by
  unfold Unified.inAppCacheInsert
  have h : (n :: c).take 100 = n :: c.take 99 := rfl
  split <;> simp [h]

theorem inApp_foldl_length (ns : List Unified.UnifiedNotification) :
    ∀ (acc : List Unified.UnifiedNotification), acc.length ≤ 100 →
      (ns.foldl (fun a n => Unified.inAppCacheInsert n a) acc).length =
        min (acc.length + ns.length) 100 := by
  induction ns with
  | nil => intro acc h; simp; omega
  | cons n ns ih =>
    intro acc h
    rw [List.foldl_cons]
    rw [ih (Unified.inAppCacheInsert n acc)
      (by rw [inAppCacheInsert_length]; omega)]
    rw [inAppCacheInsert_length]
    simp
    omega

theorem inApp_foldl_head (ns : List Unified.UnifiedNotification) :
    ∀ (acc : List Unified.UnifiedNotification), ns ≠ [] →
      (ns.foldl (fun a n => Unified.inAppCacheInsert n a) acc).head? =
        ns.getLast? := by
  induction ns with
  | nil => intro acc h; exact absurd rfl h
  | cons n ns ih =>
    intro acc _
    rw [List.foldl_cons]
    cases ns with
    | nil => simp [inAppCacheInsert_head]
    | cons m ms =>
      rw [ih (Unified.inAppCacheInsert n acc) (by simp)]
      rfl

theorem swMessage_foldl_length (ns : List Unified.UnifiedNotification) :
    ∀ (acc : List Unified.UnifiedNotification),
      (ns.foldl (fun a n => Unified.swMessageCacheInsert n a) acc).length =
        acc.length + ns.length := by
  induction ns with
  | nil => intro acc; simp
  | cons n ns ih =>
    intro acc
    rw [List.foldl_cons, ih (Unified.swMessageCacheInsert n acc)]
    simp [Unified.swMessageCacheInsert]
    omega

theorem setFirstRead_mem (cache : List Unified.UnifiedNotification)
    (notificationId : String)
    (h : ∃ n ∈ cache, n.id = notificationId) :
    ∃ n' ∈ Unified.setFirstRead cache notificationId,
      n'.id = notificationId ∧ n'.is_read = true := by
  induction cache with
  | nil => simp at h
  | cons n rest ih =>
    unfold Unified.setFirstRead
    by_cases hb : n.id = notificationId
    · have hbe : (n.id == notificationId) = true := beq_iff_eq.mpr hb
      simp only [hbe, if_true]
      exact ⟨{ n with is_read := true }, List.mem_cons_self _ _, hb, rfl⟩
    · have hbe : (n.id == notificationId) = false := by simp [hb]
      simp only [hbe, Bool.false_eq_true, if_false]
      obtain ⟨m, hm, hmid⟩ := h
      rcases List.mem_cons.mp hm with rfl | hm2
      · exact absurd hmid hb
      · obtain ⟨n', hn', hprop⟩ := ih ⟨m, hm2, hmid⟩
        exact ⟨n', List.mem_cons_of_mem _ hn', hprop⟩

/-- C1: for every POST to the notification intake function: a body lacking a
(non-empty) title or message yields 400 and no inserted row; otherwise exactly
one row is inserted whose body is the request's `message`, with `type`
defaulting to "general" and `priority` defaulting to "medium" when absent and
the remaining fields collected into the metadata bag, answered 200 with
success; an insertion error yields 500 carrying the error message. -/
theorem intake_post_contract (body : Intake.IntakeBody) (insertError : Option String)
    (now : String) :
    ((Intake.truthy body.title = false ∨ Intake.truthy body.message = false) →
      (Intake.handler "POST" body insertError now).1.statusCode = 400 ∧
      (Intake.handler "POST" body insertError now).2 = []) ∧
    (Intake.truthy body.title = true → Intake.truthy body.message = true →
      insertError = none →
      (Intake.handler "POST" body insertError now).1 = ⟨200, true, none⟩ ∧
      (Intake.handler "POST" body insertError now).2 =
        [{ title := body.title.getD ""
           body := body.message.getD ""
           type := if Intake.truthy body.type then body.type.getD "" else "general"
           priority := body.priority.getD "medium"
           metadata := body.otherData
           created_at := now }]) ∧
    (∀ msg, Intake.truthy body.title = true → Intake.truthy body.message = true →
      insertError = some msg →
      (Intake.handler "POST" body insertError now).1 = ⟨500, false, some msg⟩ ∧
      (Intake.handler "POST" body insertError now).2 = []) := by
  refine ⟨?_, ?_, ?_⟩
  · intro h
    have hb : (!(Intake.truthy body.title) || !(Intake.truthy body.message)) = true := by
      rcases h with h | h <;> simp [h]
    simp [Intake.handler, hb]
  · intro h1 h2 h3
    subst h3
    simp [Intake.handler, h1, h2]
  · intro msg h1 h2 h3
    subst h3
    simp [Intake.handler, h1, h2]

/-- Witness for C1: the documented example `{title:"t", message:"m"}` is
accepted with a single row defaulted to type "general", priority "medium". -/
theorem intake_post_contract_witness :
    Intake.truthy (some "t") = true ∧ Intake.truthy (some "m") = true ∧
    ((Intake.handler "POST" ⟨some "t", some "m", none, none, []⟩ none "now").1 =
        ⟨200, true, none⟩ ∧
      (Intake.handler "POST" ⟨some "t", some "m", none, none, []⟩ none "now").2 =
        [{ title := "t", body := "m", type := "general", priority := "medium",
           metadata := [], created_at := "now" }]) := by
  refine ⟨by decide, by decide, ?_⟩
  have h := (intake_post_contract ⟨some "t", some "m", none, none, []⟩ none "now").2.1
    (by decide) (by decide) rfl
  simpa using h

/-- C2 counterexample: a notification whose priority field is absent passes
the claim's filter for the triple (search "", type "all", priority "medium")
because the claim defaults an absent priority to "medium", yet the
Dashboard's `filteredNotifications` excludes it — the code compares the raw
(absent) priority strictly. -/
theorem dashboard_filter_default_counterexample :
    Dash.specFilterPasses "" "all" "medium"
        ⟨"1", "t", "b", none, none, false, "c"⟩ = true ∧
    Dash.filteredNotifications [⟨"1", "t", "b", none, none, false, "c"⟩]
        "" "all" "medium" = [] := by
  constructor
  · decide
  · decide

/-- C2 (amended): a notification appears in the Dashboard's filtered list iff
it is in the list and (the search term is empty OR title or body contains it
case-insensitively) AND (type filter is "all" OR equals the item's type) AND
(priority filter is "all" OR the item's priority is present and equals it —
no defaulting of an absent priority). -/
theorem dashboard_filter_characterization (notifications : List Dash.Notification)
    (searchTerm filterType filterPriority : String) (n : Dash.Notification) :
    n ∈ Dash.filteredNotifications notifications searchTerm filterType filterPriority ↔
      n ∈ notifications ∧
        Dash.amendedFilterPasses searchTerm filterType filterPriority n = true := by
  unfold Dash.filteredNotifications
  rw [List.mem_filter, matchesFilter_eq_amended]

/-- C3 counterexample: a record with no priority is mapped to provider
priority 5, not 1 — the relay defaults an absent priority to "medium"
before the numeric mapping. -/
theorem onesignal_priority_absent_counterexample :
    OneSignalRelay.oneSignalPriority none = 5 ∧
    OneSignalRelay.oneSignalPriority none ≠ 1 := by
  constructor
  · decide
  · decide

/-- C3 (amended): the provider priority is 10 for "high" or "urgent", 5 for
"medium", 1 for "low", and 5 (not 1) when the record's priority is absent,
because an absent priority is first defaulted to "medium". -/
theorem onesignal_priority_mapping :
    OneSignalRelay.oneSignalPriority (some "high") = 10 ∧
    OneSignalRelay.oneSignalPriority (some "urgent") = 10 ∧
    OneSignalRelay.oneSignalPriority (some "medium") = 5 ∧
    OneSignalRelay.oneSignalPriority (some "low") = 1 ∧
    OneSignalRelay.oneSignalPriority none = 5 := by
  refine ⟨by decide, by decide, by decide, by decide, by decide⟩

/-- C4: for every delivery attempt of the push fan-out function: a definitive
gone response deletes the subscription row and triggers no retry; any other
failure is retried up to 3 additional times with delays of 1000 ms, 2000 ms
and 3000 ms before counting as failed; and the handler answers 200 with
sent/failed/total counts satisfying sent + failed = total regardless of
outcomes. -/
theorem fanout_retry_and_counts (attempt : Nat → SendFn.SendOutcome)
    (subs : List (Nat → SendFn.SendOutcome)) :
    (attempt 0 = SendFn.SendOutcome.gone →
      SendFn.sendNotification attempt 0 3 = ⟨false, true, []⟩) ∧
    (SendFn.sendNotification attempt 0 3).delays <+: [1000, 2000, 3000] ∧
    ((∀ k, attempt k = SendFn.SendOutcome.fail) →
      SendFn.sendNotification attempt 0 3 = ⟨false, false, [1000, 2000, 3000]⟩) ∧
    (SendFn.handlerFanOut subs).1 = 200 ∧
    (SendFn.handlerFanOut subs).2.1 + (SendFn.handlerFanOut subs).2.2.1 =
      (SendFn.handlerFanOut subs).2.2.2 := by
  refine ⟨?_, ?_, ?_, rfl, ?_⟩
  · intro h
    simp [SendFn.sendNotification, h]
  · rcases h0 : attempt 0 <;> rcases h1 : attempt 1 <;> rcases h2 : attempt 2 <;>
      rcases h3 : attempt 3 <;>
      simp [SendFn.sendNotification, h0, h1, h2, h3, List.IsPrefix]
  · intro h
    simp [SendFn.sendNotification, h]
  · have h1 : (subs.map (fun a => SendFn.sendNotification a 0 3)).countP
        (fun r => r.delivered) ≤
        (subs.map (fun a => SendFn.sendNotification a 0 3)).length :=
      List.countP_le_length _
    have h2 : (subs.map (fun a => SendFn.sendNotification a 0 3)).length =
        subs.length := by simp
    simp only [SendFn.handlerFanOut]
    omega

/-- Witness for C4: a subscription whose first attempt reports gone is
deleted with no retry delays, and a one-subscription batch that always
fails still yields a 200 with sent 0, failed 1, total 1. -/
theorem fanout_retry_and_counts_witness :
    SendFn.sendNotification (fun _ => SendFn.SendOutcome.gone) 0 3 =
      ⟨false, true, []⟩ ∧
    SendFn.sendNotification (fun _ => SendFn.SendOutcome.fail) 0 3 =
      ⟨false, false, [1000, 2000, 3000]⟩ ∧
    SendFn.handlerFanOut [fun _ => SendFn.SendOutcome.fail] = (200, 0, 1, 1) :=
  ⟨(fanout_retry_and_counts (fun _ => SendFn.SendOutcome.gone) []).1 rfl,
    ((fanout_retry_and_counts (fun _ => SendFn.SendOutcome.fail) []).2.2.1
      (fun _ => rfl)),
    by decide⟩

/-- C5: after a successful acknowledge-all the unread count is exactly 0 and
every listed item's acknowledged flag is true; after a successful
acknowledge-one on an unread item (with the counter consistent with the
list) the unread count decreases by exactly 1, and it never goes below 0
even when the operation is invoked twice with the same id. -/
theorem dashboard_unread_count_invariant (s : Dash.DashboardState) (noteId : String)
    (hcount : s.unreadCount =
      (s.notifications.countP (fun n => !n.acknowledged) : Int))
    (hunread : ∃ n ∈ s.notifications, n.id = noteId ∧ n.acknowledged = false) :
    (Dash.acknowledgeAllNotifications s).unreadCount = 0 ∧
    (∀ n ∈ (Dash.acknowledgeAllNotifications s).notifications,
      n.acknowledged = true) ∧
    (Dash.acknowledgeNotification s noteId).unreadCount = s.unreadCount - 1 ∧
    0 ≤ (Dash.acknowledgeNotification
          (Dash.acknowledgeNotification s noteId) noteId).unreadCount := by
  refine ⟨rfl, ?_, ?_, ?_⟩
  · intro n hn
    simp only [Dash.acknowledgeAllNotifications, List.mem_map] at hn
    obtain ⟨m, _, rfl⟩ := hn
    rfl
  · obtain ⟨n, hn, _, hack⟩ := hunread
    have hpos : 0 < s.notifications.countP (fun n => !n.acknowledged) := by
      rw [List.countP_pos_iff]
      exact ⟨n, hn, by simp [hack]⟩
    have h1 : (1 : Int) ≤ s.unreadCount := by
      rw [hcount]
      exact_mod_cast hpos
    simp only [Dash.acknowledgeNotification]
    omega
  · simp only [Dash.acknowledgeNotification]
    omega

/-- Witness for C5 at a one-element state with a consistent counter. -/
theorem dashboard_unread_count_invariant_witness :
    ((⟨[⟨"1", "t", "b", none, none, false, "c"⟩], 1⟩ :
        Dash.DashboardState).unreadCount =
      (([⟨"1", "t", "b", none, none, false, "c"⟩] :
          List Dash.Notification).countP (fun n => !n.acknowledged) : Int)) ∧
    (∃ n ∈ ([⟨"1", "t", "b", none, none, false, "c"⟩] :
        List Dash.Notification), n.id = "1" ∧ n.acknowledged = false) ∧
    ((Dash.acknowledgeAllNotifications
        ⟨[⟨"1", "t", "b", none, none, false, "c"⟩], 1⟩).unreadCount = 0 ∧
      (∀ n ∈ (Dash.acknowledgeAllNotifications
          ⟨[⟨"1", "t", "b", none, none, false, "c"⟩], 1⟩).notifications,
        n.acknowledged = true) ∧
      (Dash.acknowledgeNotification
          ⟨[⟨"1", "t", "b", none, none, false, "c"⟩], 1⟩ "1").unreadCount =
        (⟨[⟨"1", "t", "b", none, none, false, "c"⟩], 1⟩ :
          Dash.DashboardState).unreadCount - 1 ∧
      0 ≤ (Dash.acknowledgeNotification
            (Dash.acknowledgeNotification
              ⟨[⟨"1", "t", "b", none, none, false, "c"⟩], 1⟩ "1")
            "1").unreadCount) :=
  ⟨by decide, ⟨⟨"1", "t", "b", none, none, false, "c"⟩, by decide, by decide⟩,
    dashboard_unread_count_invariant
      ⟨[⟨"1", "t", "b", none, none, false, "c"⟩], 1⟩ "1" (by decide)
      ⟨⟨"1", "t", "b", none, none, false, "c"⟩, by decide, by decide⟩⟩

/-- C6: after inserting more than 50 (Dashboard realtime handler) and more
than 100 (unified service in-app handler) distinct notifications one at a
time, newest first, the Dashboard list has length exactly 50 and the
unified cache length exactly 100, and each list's first element is the most
recently inserted notification. -/
theorem local_cache_cap (ns : List Dash.Notification)
    (ms : List Unified.UnifiedNotification)
    (hids : (ns.map Dash.Notification.id).Nodup)
    (h50 : 50 < ns.length) (h100 : 100 < ms.length) :
    (Dash.realtimeInsertAll ns).length = 50 ∧
    (Dash.realtimeInsertAll ns).head? = ns.getLast? ∧
    (Unified.inAppInsertAll ms).length = 100 ∧
    (Unified.inAppInsertAll ms).head? = ms.getLast? := by
  have hns : ns ≠ [] := by
    intro h
    subst h
    simp at h50
  have hms : ms ≠ [] := by
    intro h
    subst h
    simp at h100
  refine ⟨?_, ?_, ?_, ?_⟩
  · have h := realtime_foldl_length ns [] (by simpa using hids) (by simp)
    unfold Dash.realtimeInsertAll
    rw [h]
    simp
    omega
  · simpa [Dash.realtimeInsertAll] using
      realtime_foldl_head ns [] hns (by simpa using hids)
  · have h := inApp_foldl_length ms [] (by simp)
    unfold Unified.inAppInsertAll
    rw [h]
    simp
    omega
  · simpa [Unified.inAppInsertAll] using inApp_foldl_head ms [] hms

/-- Witness for C6 on explicit streams of 51 and 101 distinct notifications. -/
theorem local_cache_cap_witness :
    ((dashStream.map Dash.Notification.id).Nodup ∧ 50 < dashStream.length ∧
      100 < unifiedStream.length) ∧
    ((Dash.realtimeInsertAll dashStream).length = 50 ∧
      (Dash.realtimeInsertAll dashStream).head? = dashStream.getLast? ∧
      (Unified.inAppInsertAll unifiedStream).length = 100 ∧
      (Unified.inAppInsertAll unifiedStream).head? = unifiedStream.getLast?) :=
  ⟨⟨by decide, by decide, by decide⟩,
    local_cache_cap dashStream unifiedStream (by decide) (by decide) (by decide)⟩

/-- C7 counterexample: a push event with no data displays the default
notification, whose data bag carries no id at all — the handler only
generates an id when a payload is present, so the claim's "generated tag
and id" fails on the id. -/
theorem push_no_data_id_counterexample :
    (SW.pushHandler none 0).dataId = none ∧
    SW.pushHandler none 0 =
      ⟨"MCM Alert", "New notification received", "mcm-notification-0", false,
        [200, 100, 200], none, "/"⟩ := by
  constructor
  · rfl
  · rfl

/-- C7 (amended): a push event with no data displays a notification titled
"MCM Alert" with body "New notification received" and a time-generated tag,
but no id is attached to its data; a push event with payload
`{title:"X", message:"Y", priority:"high"}` displays with
requireInteraction true and vibration pattern [300,100,300,100,300] (and
there a time-generated id is attached). -/
theorem push_payload_defaulting (now : Nat) (t m : String) :
    SW.pushHandler none now =
      ⟨"MCM Alert", "New notification received", s!"mcm-notification-{now}",
        false, [200, 100, 200], none, "/"⟩ ∧
    (SW.pushHandler (some ⟨some t, some m, none, none, some "high", none⟩)
        now).requireInteraction = true ∧
    (SW.pushHandler (some ⟨some t, some m, none, none, some "high", none⟩)
        now).vibrate = [300, 100, 300, 100, 300] ∧
    (SW.pushHandler (some ⟨some t, some m, none, none, some "high", none⟩)
        now).dataId = some s!"push-{now}" := by
  refine ⟨rfl, rfl, rfl, ?_⟩
  rfl

/-- C8 counterexample: register the same callback reference twice, then call
one of the returned de-registration closures once — both occurrences are
removed (the closure filters by reference), so a subsequent fan-out invokes
the callback zero times instead of the once that "independently removable"
registrations would give. -/
theorem listener_dereg_counterexample :
    Unified.removeInAppListener 0
        (Unified.addInAppListener 0 (Unified.addInAppListener 0 [])) = [] ∧
    (Unified.handleInAppNotification
        ⟨"n1", none, "t", none, none, "test", "medium", none, false, none,
          none, "ts", "c", none⟩ []
        (Unified.removeInAppListener 0
          (Unified.addInAppListener 0 (Unified.addInAppListener 0 [])))).2 =
      [] := by
  constructor
  · decide
  · decide

/-- C8 (amended): each de-registration closure removes every occurrence of
the exact callback reference from its list; after it runs, a fanned-out
notification no longer invokes the removed callback while every other
still-registered listener is still invoked with the notification; multiple
registrations of the same callback are permitted, but a single
de-registration removes all of them at once. -/
theorem listener_dereg (note : Unified.UnifiedNotification)
    (cache : List Unified.UnifiedNotification)
    (ls ps : List Unified.ListenerRef) (cb other : Unified.ListenerRef) :
    (cb ∉ ((Unified.handleInAppNotification note cache
        (Unified.removeInAppListener cb ls)).2.map Prod.fst)) ∧
    (other ≠ cb →
      (Unified.removeInAppListener cb ls).count other = ls.count other) ∧
    ((Unified.handleInAppNotification note cache ls).2 =
      ls.map (fun c => (c, note))) ∧
    ((Unified.addInAppListener cb (Unified.addInAppListener cb ls)).count cb =
      ls.count cb + 2) ∧
    ((Unified.removeInAppListener cb
        (Unified.addInAppListener cb (Unified.addInAppListener cb ls))).count cb
      = 0) ∧
    (cb ∉ ((Unified.handlePushMessage note cache
        (Unified.removePushListener cb ps)).2.map Prod.fst)) ∧
    (other ≠ cb →
      (Unified.removePushListener cb ps).count other = ps.count other) := by
  refine ⟨?_, ?_, rfl, ?_, ?_, ?_, ?_⟩
  · simp [Unified.handleInAppNotification, Unified.removeInAppListener]
  · intro h
    exact List.count_filter (by simp [h])
  · simp [Unified.addInAppListener, List.count_append]
  · rw [List.count_eq_zero]
    simp [Unified.removeInAppListener, Unified.addInAppListener]
  · simp [Unified.handlePushMessage, Unified.removePushListener]
  · intro h
    exact List.count_filter (by simp [h])

/-- Witness for C8: with listeners [0, 1], removing callback 0 leaves
callback 1 registered exactly once, for both listener lists. -/
theorem listener_dereg_witness :
    (1 : Unified.ListenerRef) ≠ 0 ∧
    ((0 : Unified.ListenerRef) ∉
      ((Unified.handleInAppNotification
          ⟨"n1", none, "t", none, none, "test", "medium", none, false, none,
            none, "ts", "c", none⟩ []
          (Unified.removeInAppListener 0 [0, 1])).2.map Prod.fst)) ∧
    (Unified.removeInAppListener 0 [0, 1]).count 1 = ([0, 1] :
      List Unified.ListenerRef).count 1 :=
  ⟨by decide,
    (listener_dereg
      ⟨"n1", none, "t", none, none, "test", "medium", none, false, none,
        none, "ts", "c", none⟩ [] [0, 1] [] 0 1).1,
    (listener_dereg
      ⟨"n1", none, "t", none, none, "test", "medium", none, false, none,
        none, "ts", "c", none⟩ [] [0, 1] [] 0 1).2.1 (by decide)⟩

/-- C9: `markAsRead` and `markAllAsRead` mutate the local cache first and
unconditionally (is_read set true for the first matching id, respectively
for every cached item); when a database is configured the update setting
is_read and acknowledged true and touching updated_at is issued and a
thrown database error propagates to the caller while the local mutation
stays in place; with no database configured nothing is issued or thrown. -/
theorem mark_read_local_first (avail : Bool)
    (cache : List Unified.UnifiedNotification) (noteId : String)
    (dbError : Option String) :
    ((Unified.markAsRead avail cache noteId dbError).cache =
      Unified.setFirstRead cache noteId) ∧
    ((∃ n ∈ cache, n.id = noteId) →
      ∃ n' ∈ (Unified.markAsRead avail cache noteId dbError).cache,
        n'.id = noteId ∧ n'.is_read = true) ∧
    (avail = true →
      (Unified.markAsRead avail cache noteId dbError).dbUpdate =
        some ⟨true, true, true, Unified.UpdateFilter.byId noteId⟩ ∧
      (Unified.markAsRead avail cache noteId dbError).thrown = dbError) ∧
    (avail = false →
      (Unified.markAsRead avail cache noteId dbError).dbUpdate = none ∧
      (Unified.markAsRead avail cache noteId dbError).thrown = none) ∧
    ((Unified.markAllAsRead avail cache dbError).cache =
      cache.map (fun n => { n with is_read := true })) ∧
    (∀ n' ∈ (Unified.markAllAsRead avail cache dbError).cache,
      n'.is_read = true) ∧
    (avail = true →
      (Unified.markAllAsRead avail cache dbError).dbUpdate =
        some ⟨true, true, true, Unified.UpdateFilter.unreadOnly⟩ ∧
      (Unified.markAllAsRead avail cache dbError).thrown = dbError) := by
  refine ⟨?_, ?_, ?_, ?_, ?_, ?_, ?_⟩
  · cases avail <;> rfl
  · intro h
    cases avail <;>
      simpa [Unified.markAsRead] using setFirstRead_mem cache noteId h
  · intro h
    subst h
    simp [Unified.markAsRead]
  · intro h
    subst h
    simp [Unified.markAsRead]
  · cases avail <;> rfl
  · intro n' hn'
    have hc : (Unified.markAllAsRead avail cache dbError).cache =
        cache.map (fun n => { n with is_read := true }) := by
      cases avail <;> rfl
    rw [hc] at hn'
    obtain ⟨m, _, rfl⟩ := List.mem_map.mp hn'
    rfl
  · intro h
    subst h
    simp [Unified.markAllAsRead]

/-- Witness for C9: marking the sole cached unread notification as read
with a configured database whose update throws "boom" still flips the local
is_read flag and surfaces the error. -/
theorem mark_read_local_first_witness :
    (∃ n ∈ [(⟨"n1", none, "t", none, none, "test", "medium", none, false,
        none, none, "ts", "c", none⟩ : Unified.UnifiedNotification)],
      n.id = "n1") ∧
    (∃ n' ∈ (Unified.markAsRead true
        [⟨"n1", none, "t", none, none, "test", "medium", none, false, none,
          none, "ts", "c", none⟩] "n1" (some "boom")).cache,
      n'.id = "n1" ∧ n'.is_read = true) ∧
    (Unified.markAsRead true
        [⟨"n1", none, "t", none, none, "test", "medium", none, false, none,
          none, "ts", "c", none⟩] "n1" (some "boom")).thrown = some "boom" :=
  ⟨⟨⟨"n1", none, "t", none, none, "test", "medium", none, false, none, none,
      "ts", "c", none⟩, by decide, by decide⟩,
    (mark_read_local_first true
      [⟨"n1", none, "t", none, none, "test", "medium", none, false, none,
        none, "ts", "c", none⟩] "n1" (some "boom")).2.1
      ⟨⟨"n1", none, "t", none, none, "test", "medium", none, false, none,
        none, "ts", "c", none⟩, by decide, by decide⟩,
    ((mark_read_local_first true
      [⟨"n1", none, "t", none, none, "test", "medium", none, false, none,
        none, "ts", "c", none⟩] "n1" (some "boom")).2.2.1 rfl).2⟩

/-- C10: the `PUSH_NOTIFICATION_RECEIVED` worker-message handler prepends
to the local cache without truncating, so a stream of more than 100
push-message events grows the cache beyond 100 items (and any single such
insert on a full cache breaches the bound), while the in-app insert handler
is the only operation that enforces the 100-item cap — the bound is not an
invariant of every cache-mutating operation. -/
theorem push_message_cache_unbounded (ns : List Unified.UnifiedNotification)
    (cache : List Unified.UnifiedNotification)
    (n : Unified.UnifiedNotification)
    (h100 : 100 < ns.length) (hfull : 100 ≤ cache.length) :
    ((ns.foldl (fun acc m => Unified.swMessageCacheInsert m acc) []).length =
      ns.length) ∧
    (100 < (ns.foldl (fun acc m => Unified.swMessageCacheInsert m acc) []).length) ∧
    (100 < (Unified.swMessageCacheInsert n cache).length) ∧
    (∀ (m : Unified.UnifiedNotification)
        (c : List Unified.UnifiedNotification),
      c.length ≤ 100 → (Unified.inAppCacheInsert m c).length ≤ 100) := by
  have h := swMessage_foldl_length ns []
  refine ⟨by simpa using h, ?_, ?_, ?_⟩
  · rw [h]
    simpa using h100
  · simp only [Unified.swMessageCacheInsert, List.length_cons]
    omega
  · intro m c hc
    rw [inAppCacheInsert_length]
    omega

/-- Witness for C10: 101 push-message events grow the cache to 101 items,
one past the 100-item bound the in-app handler would enforce. -/
theorem push_message_cache_unbounded_witness :
    (100 < unifiedStream.length ∧ 100 ≤ (unifiedStream.take 100).length) ∧
    ((unifiedStream.foldl
        (fun acc m => Unified.swMessageCacheInsert m acc) []).length =
      unifiedStream.length ∧
    100 < (unifiedStream.foldl
        (fun acc m => Unified.swMessageCacheInsert m acc) []).length ∧
    100 < (Unified.swMessageCacheInsert
        ⟨"n1", none, "t", none, none, "test", "medium", none, false, none,
          none, "ts", "c", none⟩ (unifiedStream.take 100)).length ∧
    (∀ (m : Unified.UnifiedNotification)
        (c : List Unified.UnifiedNotification),
      c.length ≤ 100 → (Unified.inAppCacheInsert m c).length ≤ 100)) :=
  ⟨⟨by decide, by decide⟩,
    push_message_cache_unbounded unifiedStream (unifiedStream.take 100)
      ⟨"n1", none, "t", none, none, "test", "medium", none, false, none,
        none, "ts", "c", none⟩ (by decide) (by decide)⟩
